import Mathlib

/-!
Verification development for the NeonSearch repository.

The repository ships a React frontend: a zustand store
(`frontend/src/store/videoStore.js`, the `src/unnamed/part_001` file) and the
main component file `frontend/src/App.js`, which contains the `SearchBar`
component and, at its end, a second (embedded) copy of the same store.

We embed the store shallowly: each zustand action becomes a pure function on
an explicit state record.  The outcome of an HTTP request (which the store only
observes through `response.data` on success, or an axios error object on
failure) is passed to the action as an explicit `SearchOutcome` /
`SourcesOutcome` argument, so an action's full behaviour is the state
transformation it performs for a given outcome.

JavaScript truthiness matters at two points: `x || y` on strings treats the
empty string, `null` and `undefined` as falsy (modelled by `jsOrStr` on
`Option String`), and `arr || []` on a possibly-absent array field (modelled by
`Option.getD`, since a present array - even `[]` - is truthy and is kept
as-is, which coincides with `getD` on `some`).

The backend (FastAPI orchestrator, result cache, suggestion engine) is not in
the repository snapshot; where a claim is about the backend we model the
component from the specification and say so in the relevant doc comment.
-/

namespace NeonSearch

/-- A video record as the frontend receives it from `/api/search`:
`{id, title, url, thumbnail, duration, views, source, type}` (see the API
documentation in the repository README).  Optional display fields are
`Option`s. -/
structure VideoRecord where
  id : String
  title : String
  url : String
  thumbnail : Option String
  duration : Option String
  views : Option String
  source : String
  kind : String
deriving Repr, DecidableEq

/-- A source descriptor as returned by `GET /api/sources`:
`{name, enabled, driver_name}`. -/
structure SourceInfo where
  name : String
  enabled : Bool
  driver_name : Option String
deriving Repr, DecidableEq

/-- JavaScript `a || b` on strings: `a` when it is present and non-empty
(truthy), otherwise `b`.  `none` models `null`/`undefined`. -/
def jsOrStr (a : Option String) (b : String) : String :=
  match a with
  | some s => if s = "" then b else s
  | none => b

/-- The whitespace characters relevant to `String.prototype.trim()` for the
ASCII queries this system handles. -/
def isWhitespaceChar (c : Char) : Bool :=
  c == ' ' || c == '\t' || c == '\n' || c == '\r'

/-- Drop leading whitespace characters. -/
def trimLeadChars : List Char → List Char
  | [] => []
  | c :: cs => if isWhitespaceChar c then trimLeadChars cs else c :: cs

/-- JavaScript `s.trim()` (and Python `s.strip()`): remove leading and
trailing whitespace. -/
def jsTrim (s : String) : String :=
  ⟨trimLeadChars ((trimLeadChars s.data.reverse).reverse)⟩

/-- Lower-case one ASCII character. -/
def lowerChar (c : Char) : Char :=
  if 'A' ≤ c ∧ c ≤ 'Z' then Char.ofNat (c.toNat + 32) else c

/-- JavaScript `s.toLowerCase()` / Python `s.lower()` on ASCII strings. -/
def jsToLower (s : String) : String :=
  ⟨s.data.map lowerChar⟩

/-- The successful payload of `POST /api/search` as the store reads it: the
store only looks at `response.data.results`, which may be absent (`none`). -/
structure SearchResponse where
  results : Option (List VideoRecord)
deriving Repr, DecidableEq

/-- The parts of an axios error object the store reads:
`error.response?.data?.detail` and `error.message`. -/
structure HttpError where
  detail : Option String
  message : Option String
deriving Repr, DecidableEq

/-- Outcome of the `POST /api/search` request issued by `searchVideos`. -/
inductive SearchOutcome where
  | success (data : SearchResponse)
  | failure (e : HttpError)
deriving Repr, DecidableEq

/-- Outcome of the `GET /api/sources` request issued by `fetchSources`:
on success the store reads `response.data.sources`, which may be absent. -/
inductive SourcesOutcome where
  | success (sources : Option (List SourceInfo))
  | failure (e : HttpError)
deriving Repr, DecidableEq

/-- The body `searchVideos` posts to `/api/search`:
`{query, sources, page: 1, limit: 40}` — exactly these four fields. -/
structure SearchRequestBody where
  query : String
  sources : List String
  page : Nat
  limit : Nat
deriving Repr, DecidableEq

/-- The request body constructed inside `searchVideos` (both copies build the
same literal): the caller's `query` and `sources` together with `page: 1` and
`limit: 40`. -/
def searchVideosRequest (query : String) (sources : List String) : SearchRequestBody :=
  { query := query, sources := sources, page := 1, limit := 40 }

namespace VideoStore

/-- The state of the `useVideoStore` zustand store in
`frontend/src/store/videoStore.js` (`src/unnamed/part_001`).  This copy has
the extra `isLoadingSources` field. -/
structure StoreState where
  results : List VideoRecord
  selectedVideo : Option VideoRecord
  isLoading : Bool
  error : Option String
  searchQuery : String
  selectedSources : List String
  availableSources : List SourceInfo
  isLoadingSources : Bool
deriving Repr, DecidableEq

/-- The store's initial state. -/
def initialState : StoreState :=
  { results := []
    selectedVideo := none
    isLoading := false
    error := none
    searchQuery := ""
    selectedSources := ["all"]
    availableSources := []
    isLoadingSources := false }

/-- `searchVideos(query, sources)` of `videoStore.js`: sets
`isLoading`/`error`/`searchQuery` first, posts `searchVideosRequest`, then on
success stores `response.data.results || []` and clears `isLoading`; on
failure stores `error.response?.data?.detail || error.message ||
'Search failed'` as the error, clears `isLoading` and empties `results`.
The whole run is modelled as one state transformation given the request
outcome (the `sources` argument only feeds the request body). -/
def searchVideos (query : String) (_sources : List String) (outcome : SearchOutcome)
    (s : StoreState) : StoreState :=
  let s1 := { s with isLoading := true, error := none, searchQuery := query }
  match outcome with
  | .success data =>
      { s1 with results := data.results.getD [], isLoading := false }
  | .failure e =>
      { s1 with
          error := some (jsOrStr e.detail (jsOrStr e.message "Search failed"))
          isLoading := false
          results := [] }

/-- `selectVideo(video)`: sets only `selectedVideo`. -/
def selectVideo (video : Option VideoRecord) (s : StoreState) : StoreState :=
  { s with selectedVideo := video }

/-- `clearResults()`: resets `results`, `selectedVideo`, `error` and
`searchQuery`; zustand's `set` merges, so all other fields stay. -/
def clearResults (s : StoreState) : StoreState :=
  { s with results := [], selectedVideo := none, error := none, searchQuery := "" }

/-- `setLoading(loading)`. -/
def setLoading (loading : Bool) (s : StoreState) : StoreState :=
  { s with isLoading := loading }

/-- `setError(error)`. -/
def setError (e : Option String) (s : StoreState) : StoreState :=
  { s with error := e }

/-- `setSearchQuery(query)`. -/
def setSearchQuery (query : String) (s : StoreState) : StoreState :=
  { s with searchQuery := query }

/-- `setSelectedSources(sources)`. -/
def setSelectedSources (sources : List String) (s : StoreState) : StoreState :=
  { s with selectedSources := sources }

/-- `fetchSources()` of `videoStore.js`: sets `isLoadingSources` and clears
`error` first; on success stores `response.data.sources || []` and clears
`isLoadingSources`; on failure stores `error.response?.data?.detail ||
error.message || 'Failed to fetch sources'` as the error and clears
`isLoadingSources` (leaving `availableSources` untouched). -/
def fetchSources (outcome : SourcesOutcome) (s : StoreState) : StoreState :=
  let s1 := { s with isLoadingSources := true, error := none }
  match outcome with
  | .success sources =>
      { s1 with availableSources := sources.getD [], isLoadingSources := false }
  | .failure e =>
      { s1 with
          error := some (jsOrStr e.detail (jsOrStr e.message "Failed to fetch sources"))
          isLoadingSources := false }

end VideoStore

namespace AppStore

/-- The state of the second `useVideoStore` copy embedded at the end of
`frontend/src/App.js` (lines 359-437): the same fields except that this copy
has no `isLoadingSources`. -/
structure StoreState where
  results : List VideoRecord
  selectedVideo : Option VideoRecord
  isLoading : Bool
  error : Option String
  searchQuery : String
  selectedSources : List String
  availableSources : List SourceInfo
deriving Repr, DecidableEq

/-- Initial state of the embedded copy. -/
def initialState : StoreState :=
  { results := []
    selectedVideo := none
    isLoading := false
    error := none
    searchQuery := ""
    selectedSources := ["all"]
    availableSources := [] }

/-- `searchVideos` of the App.js copy.  Identical to the module copy except
for the failure message: this copy computes
`error.response?.data?.detail || 'Search failed'` — it never falls back to
`error.message`. -/
def searchVideos (query : String) (_sources : List String) (outcome : SearchOutcome)
    (s : StoreState) : StoreState :=
  let s1 := { s with isLoading := true, error := none, searchQuery := query }
  match outcome with
  | .success data =>
      { s1 with results := data.results.getD [], isLoading := false }
  | .failure e =>
      { s1 with
          error := some (jsOrStr e.detail "Search failed")
          isLoading := false
          results := [] }

/-- `selectVideo` of the App.js copy. -/
def selectVideo (video : Option VideoRecord) (s : StoreState) : StoreState :=
  { s with selectedVideo := video }

/-- `clearResults` of the App.js copy. -/
def clearResults (s : StoreState) : StoreState :=
  { s with results := [], selectedVideo := none, error := none, searchQuery := "" }

/-- `setLoading` of the App.js copy. -/
def setLoading (loading : Bool) (s : StoreState) : StoreState :=
  { s with isLoading := loading }

/-- `setError` of the App.js copy. -/
def setError (e : Option String) (s : StoreState) : StoreState :=
  { s with error := e }

/-- `setSearchQuery` of the App.js copy. -/
def setSearchQuery (query : String) (s : StoreState) : StoreState :=
  { s with searchQuery := query }

/-- `setSelectedSources` of the App.js copy. -/
def setSelectedSources (sources : List String) (s : StoreState) : StoreState :=
  { s with selectedSources := sources }

/-- `fetchSources` of the App.js copy: on success stores
`response.data.sources || []`; on failure it only logs to the console — the
state is left completely unchanged. -/
def fetchSources (outcome : SourcesOutcome) (s : StoreState) : StoreState :=
  match outcome with
  | .success sources => { s with availableSources := sources.getD [] }
  | .failure _ => s

end AppStore

/-- Projection from the module store's state to the App.js copy's state,
dropping the extra `isLoadingSources` field.  Used to compare the two copies. -/
def projectState (s : VideoStore.StoreState) : AppStore.StoreState :=
  { results := s.results
    selectedVideo := s.selectedVideo
    isLoading := s.isLoading
    error := s.error
    searchQuery := s.searchQuery
    selectedSources := s.selectedSources
    availableSources := s.availableSources }

namespace SearchBar

/-- `handleSubmit` of the `SearchBar` component (App.js lines 17-22): if
`query.trim()` is truthy (a non-empty string) it calls
`onSearch(query, selectedSources)` — note it passes `query` itself, not the
trimmed string; otherwise it does nothing.  The result is the argument pair
handed to `onSearch`, or `none` when no search is issued. -/
def handleSubmit (query : String) (selectedSources : List String) :
    Option (String × List String) :=
  if jsTrim query ≠ "" then some (query, selectedSources) else none

/-- The per-source filter button's `onClick` (App.js lines 67-76): when the
current selection contains `"all"` it becomes `[name]`; otherwise `name` is
removed if present or appended if not, and an empty result falls back to
`["all"]`. -/
def toggleSource (name : String) (ss : List String) : List String :=
  if "all" ∈ ss then [name]
  else
    let newSources := if name ∈ ss then ss.filter (fun s => s ≠ name) else ss ++ [name]
    if newSources = [] then ["all"] else newSources

/-- The labels of the source filter buttons, rendered by mapping over
`availableSources` in order (App.js lines 63-86); each label is
`source.driver_name || source.name`. -/
def renderSourceButtons (availableSources : List SourceInfo) : List String :=
  availableSources.map (fun src => jsOrStr src.driver_name src.name)

end SearchBar

/-- The actions through which the frontend mutates the store.  `selectAllSources`
and `toggleSourceButton` are the two `SearchBar` buttons, which are the
program's only call sites of `setSelectedSources` (App.js lines 54, 69, 74). -/
inductive StoreAction where
  | searchVideos (query : String) (sources : List String) (outcome : SearchOutcome)
  | selectVideo (video : Option VideoRecord)
  | clearResults
  | setLoading (loading : Bool)
  | setError (e : Option String)
  | setSearchQuery (query : String)
  | selectAllSources
  | toggleSourceButton (name : String)
  | fetchSources (outcome : SourcesOutcome)

/-- One step of the module store under a `StoreAction`. -/
def applyAction : StoreAction → VideoStore.StoreState → VideoStore.StoreState
  | .searchVideos query sources outcome, s => VideoStore.searchVideos query sources outcome s
  | .selectVideo video, s => VideoStore.selectVideo video s
  | .clearResults, s => VideoStore.clearResults s
  | .setLoading loading, s => VideoStore.setLoading loading s
  | .setError e, s => VideoStore.setError e s
  | .setSearchQuery query, s => VideoStore.setSearchQuery query s
  | .selectAllSources, s => VideoStore.setSelectedSources ["all"] s
  | .toggleSourceButton name, s =>
      VideoStore.setSelectedSources (SearchBar.toggleSource name s.selectedSources) s
  | .fetchSources outcome, s => VideoStore.fetchSources outcome s

/-- Side condition of an action: a source filter button is rendered for an
entry of `availableSources`, so its `name` is a source slug, never the
sentinel string `"all"`. -/
def actionOk : StoreAction → Prop
  | .toggleSourceButton name => name ≠ "all"
  | _ => True

/-- The store states reachable in the frontend: the initial state, closed
under the store actions (with their side conditions). -/
inductive Reachable : VideoStore.StoreState → Prop
  | init : Reachable VideoStore.initialState
  | step {s : VideoStore.StoreState} (a : StoreAction) (ha : actionOk a) :
      Reachable s → Reachable (applyAction a s)

/-- Well-formedness of a source selection: either exactly the sentinel list
`["all"]`, or a non-empty list not containing `"all"`. -/
def sourcesInv (ss : List String) : Prop :=
  ss = ["all"] ∨ (ss ≠ [] ∧ "all" ∉ ss)

namespace Backend

/-! ### Backend models

The backend (`backend/server.py` with the orchestrator, result cache and
suggestion engine) is not part of the repository snapshot — only its API
surface is documented.  The definitions below are therefore modelled from the
specification (sections 3, 4.1, 4.4, 4.5, 4.6). -/

/-- Modelled from the spec: a SearchRequest — query, requested source
selection (the list `["all"]` is the sentinel), page and limit.  The backend
`search` operation is missing from the snapshot. -/
structure OrchRequest where
  query : String
  sources : List String
  page : Nat
  limit : Nat
deriving Repr, DecidableEq

/-- Modelled from the spec: a SearchResult — ordered records, pre-truncation
total, echoed page, and the slugs actually (successfully) searched. -/
structure OrchResult where
  results : List VideoRecord
  total : Nat
  page : Nat
  sources_searched : List String
deriving Repr, DecidableEq

/-- Modelled from the spec: the only request-level failure of the
orchestrator is `InvalidRequest`. -/
inductive OrchError where
  | invalidRequest
deriving Repr, DecidableEq

/-- Insert a string into a (sorted) list, keeping it sorted. -/
def insertSorted (x : String) : List String → List String
  | [] => [x]
  | y :: ys => if x ≤ y then x :: y :: ys else y :: insertSorted x ys

/-- Sort a list of slugs (insertion sort). -/
def sortSlugs (l : List String) : List String :=
  l.foldr insertSorted []

/-- Modelled from the spec: the environment of one `search` run — the
SourceRegistry (ordered list of `(slug, enabled)` pairs, registration order)
and, for each slug, the outcome of its fetch-and-extract branch (`none` when
that source failed at any stage, `some records` on success).  The
FetchClient and Driver internals are missing from the snapshot. -/
structure OrchEnv where
  registry : List (String × Bool)
  outcome : String → Option (List VideoRecord)

/-- Modelled from the spec: `SourceRegistry.resolve(selection)` — the sorted
enabled slugs when the selection is the `"all"` sentinel, otherwise the
sorted intersection of the selection with the enabled slugs (unknown or
disabled slugs silently dropped). -/
def resolveSelection (registry : List (String × Bool)) (selection : List String) :
    List String :=
  let enabled := (registry.filter (fun p => p.2)).map (fun p => p.1)
  if "all" ∈ selection then sortSlugs enabled
  else sortSlugs (enabled.filter (fun slug => slug ∈ selection))

/-- Modelled from the spec: request validation — `InvalidRequest` exactly on
an empty (after trimming) query or a non-positive page or limit. -/
def validRequest (req : OrchRequest) : Prop :=
  jsTrim req.query ≠ "" ∧ 0 < req.page ∧ 0 < req.limit

instance (req : OrchRequest) : Decidable (validRequest req) := by
  unfold validRequest; infer_instance

/-- Modelled from the spec: the slugs that contributed successfully, in
registration order, and the concatenation of their records (spec 4.4 steps
3-5: each failing source contributes nothing and is excluded from
"sources searched"; records are concatenated in source-registration order). -/
def gatherRecords (env : OrchEnv) (resolved : List String) : List VideoRecord :=
  ((env.registry.map (fun p => p.1)).filter (fun slug => slug ∈ resolved)).flatMap
    (fun slug => (env.outcome slug).getD [])

/-- Modelled from the spec: the slugs among `resolved` whose branch
succeeded. -/
def searchedSlugs (env : OrchEnv) (resolved : List String) : List String :=
  resolved.filter (fun slug => (env.outcome slug).isSome)

/-- Modelled from the spec: the aggregation of one cache-missing search run
(spec 4.4 steps 3-5) — fan out over the resolved slugs, absorb per-source
failures, concatenate contributions in registration order, truncate to
`limit`, set `total` to the pre-truncation count, and report the successful
slugs as `sources_searched`. -/
def computeResult (req : OrchRequest) (env : OrchEnv) : OrchResult :=
  { results := (gatherRecords env (searchedSlugs env (resolveSelection env.registry req.sources))).take req.limit
    total := (gatherRecords env (searchedSlugs env (resolveSelection env.registry req.sources))).length
    page := req.page
    sources_searched := searchedSlugs env (resolveSelection env.registry req.sources) }

/-- Modelled from the spec: `SearchOrchestrator.search(request)` without the
cache (spec 4.4): validate, then aggregate; fails only with
`InvalidRequest`. -/
def search (req : OrchRequest) (env : OrchEnv) : Except OrchError OrchResult :=
  if validRequest req then .ok (computeResult req env)
  else .error .invalidRequest

/-- Modelled from the spec: the normalized SearchKey — lower-cased trimmed
query, sorted resolved source slugs, page. -/
structure SearchKey where
  query : String
  slugs : List String
  page : Nat
deriving Repr, DecidableEq

/-- Modelled from the spec: derive the SearchKey of a request (resolution
happens against the current registry). -/
def mkSearchKey (req : OrchRequest) (env : OrchEnv) : SearchKey :=
  { query := jsToLower (jsTrim req.query)
    slugs := resolveSelection env.registry req.sources
    page := req.page }

/-- Modelled from the spec: one ResultCache entry — key, cached result and
creation timestamp. -/
structure CacheEntry where
  key : SearchKey
  result : OrchResult
  created : Nat
deriving Repr, DecidableEq

/-- Modelled from the spec: the ResultCache state, a list of entries kept in
most-recently-used-first order. -/
def CacheState := List CacheEntry

/-- Modelled from the spec: cache lookup — absent for unknown keys and for
entries whose age exceeds the TTL (which are evicted by the discovering
access); a hit moves the entry to the front (recency update) and returns the
stored result. -/
def cacheGet (c : CacheState) (k : SearchKey) (now ttl : Nat) :
    Option OrchResult × CacheState :=
  match c.find? (fun e => e.key == k) with
  | none => (none, c)
  | some e =>
      let rest := c.filter (fun e2 => ¬ (e2.key == k))
      if now - e.created ≤ ttl then (some e.result, e :: rest)
      else (none, rest)

/-- Modelled from the spec: cache insertion — the new entry becomes the most
recent and the least-recently-used entries beyond `capacity` are evicted. -/
def cachePut (c : CacheState) (k : SearchKey) (r : OrchResult) (now capacity : Nat) :
    CacheState :=
  (({ key := k, result := r, created := now } : CacheEntry) ::
    c.filter (fun e => ¬ (e.key == k))).take capacity

/-- Modelled from the spec: the orchestrator with its cache (spec 4.4 steps
1-6).  Returns the outcome, the new cache state, and the number of
FetchClient invocations performed (one per fanned-out source; the
fetch-count probe of spec section 8). -/
def searchCached (req : OrchRequest) (env : OrchEnv) (cache : CacheState)
    (now ttl capacity : Nat) :
    Except OrchError OrchResult × CacheState × Nat :=
  if validRequest req then
    match cacheGet cache (mkSearchKey req env) now ttl with
    | (some r, c1) => (.ok r, c1, 0)
    | (none, c1) =>
        (.ok (computeResult req env),
         cachePut c1 (mkSearchKey req env) (computeResult req env) now capacity,
         (resolveSelection env.registry req.sources).length)
  else (.error .invalidRequest, cache, 0)

/-- Modelled from the spec: the fixed qualifier suffixes of the
SuggestionEngine (spec 4.6 and the documented `/api/suggestions` example). -/
def suggestionSuffixes : List String :=
  ["hd", "compilation", "amateur"]

/-- Modelled from the spec: `suggest(query)` — appends each fixed qualifier
suffix to the trimmed query.  A total Lean function: pure, deterministic,
performs no I/O and never fails.  The SuggestionEngine source is missing from
the snapshot. -/
def suggest (query : String) : List String :=
  suggestionSuffixes.map (fun suffix => jsTrim query ++ " " ++ suffix)

end Backend

/-! ## Theorems -/

/-- C1: every invocation of the store action `searchVideos(query, sources)`
posts a body to `/api/search` consisting of exactly the four fields `query`,
`sources`, `page` and `limit`, with `page = 1` and `limit = 40`, both
positive integers as the `SearchRequest` data model requires. -/
theorem searchVideos_request_body (query : String) (sources : List String) :
    searchVideosRequest query sources =
      { query := query, sources := sources, page := 1, limit := 40 } ∧
    0 < (searchVideosRequest query sources).page ∧
    0 < (searchVideosRequest query sources).limit := by
  refine ⟨rfl, ?_, ?_⟩ <;> norm_num [searchVideosRequest]

/-- C10: `clearResults` sets exactly `results := []`,
`selectedVideo := null`, `error := null` and `searchQuery := ""` and leaves
every other store field (in particular `selectedSources` and
`availableSources`) unchanged; `selectVideo` changes only `selectedVideo`.
Stated field by field for both the module store and the copy embedded in
App.js (whose `clearResults`/`selectVideo` are textually identical). -/
theorem clearResults_selectVideo_frame (s : VideoStore.StoreState)
    (t : AppStore.StoreState) (v : Option VideoRecord) :
    (VideoStore.clearResults s).results = [] ∧
    (VideoStore.clearResults s).selectedVideo = none ∧
    (VideoStore.clearResults s).error = none ∧
    (VideoStore.clearResults s).searchQuery = "" ∧
    (VideoStore.clearResults s).selectedSources = s.selectedSources ∧
    (VideoStore.clearResults s).availableSources = s.availableSources ∧
    (VideoStore.clearResults s).isLoading = s.isLoading ∧
    (VideoStore.clearResults s).isLoadingSources = s.isLoadingSources ∧
    (VideoStore.selectVideo v s).selectedVideo = v ∧
    (VideoStore.selectVideo v s).results = s.results ∧
    (VideoStore.selectVideo v s).isLoading = s.isLoading ∧
    (VideoStore.selectVideo v s).error = s.error ∧
    (VideoStore.selectVideo v s).searchQuery = s.searchQuery ∧
    (VideoStore.selectVideo v s).selectedSources = s.selectedSources ∧
    (VideoStore.selectVideo v s).availableSources = s.availableSources ∧
    (VideoStore.selectVideo v s).isLoadingSources = s.isLoadingSources ∧
    (AppStore.clearResults t).results = [] ∧
    (AppStore.clearResults t).selectedVideo = none ∧
    (AppStore.clearResults t).error = none ∧
    (AppStore.clearResults t).searchQuery = "" ∧
    (AppStore.clearResults t).selectedSources = t.selectedSources ∧
    (AppStore.clearResults t).availableSources = t.availableSources ∧
    (AppStore.clearResults t).isLoading = t.isLoading ∧
    (AppStore.selectVideo v t).selectedVideo = v ∧
    (AppStore.selectVideo v t).results = t.results ∧
    (AppStore.selectVideo v t).isLoading = t.isLoading ∧
    (AppStore.selectVideo v t).error = t.error ∧
    (AppStore.selectVideo v t).searchQuery = t.searchQuery ∧
    (AppStore.selectVideo v t).selectedSources = t.selectedSources ∧
    (AppStore.selectVideo v t).availableSources = t.availableSources :=
  ⟨rfl, rfl, rfl, rfl, rfl, rfl, rfl, rfl, rfl, rfl, rfl, rfl, rfl, rfl, rfl,
   rfl, rfl, rfl, rfl, rfl, rfl, rfl, rfl, rfl, rfl, rfl, rfl, rfl, rfl, rfl⟩

/-- C9: after any run of `searchVideos` (either copy), `isLoading` is
`false`; on a failed request `results` is empty and `error` is a non-null
message; on a successful request `error` remains null and `results` equals
the response's `results` field, or `[]` when that field is absent. -/
theorem searchVideos_post (query : String) (sources : List String)
    (outcome : SearchOutcome) (s : VideoStore.StoreState) (t : AppStore.StoreState) :
    (VideoStore.searchVideos query sources outcome s).isLoading = false ∧
    (AppStore.searchVideos query sources outcome t).isLoading = false ∧
    (∀ e, outcome = .failure e →
      (VideoStore.searchVideos query sources outcome s).results = [] ∧
      (VideoStore.searchVideos query sources outcome s).error ≠ none ∧
      (AppStore.searchVideos query sources outcome t).results = [] ∧
      (AppStore.searchVideos query sources outcome t).error ≠ none) ∧
    (∀ d, outcome = .success d →
      (VideoStore.searchVideos query sources outcome s).error = none ∧
      (VideoStore.searchVideos query sources outcome s).results = d.results.getD [] ∧
      (AppStore.searchVideos query sources outcome t).error = none ∧
      (AppStore.searchVideos query sources outcome t).results = d.results.getD []) := by
  cases outcome with
  | success d =>
      refine ⟨rfl, rfl, fun e he => ?_, fun d2 hd => ?_⟩
      · cases he
      · cases hd
        exact ⟨rfl, rfl, rfl, rfl⟩
  | failure e =>
      refine ⟨rfl, rfl, fun e2 he => ?_, fun d hd => ?_⟩
      · cases he
        exact ⟨rfl, by simp [VideoStore.searchVideos], rfl, by simp [AppStore.searchVideos]⟩
      · cases hd

/-- Witness for `searchVideos_post`: a concrete failing request on both
copies, from the initial states. -/
theorem searchVideos_post_witness :
    (VideoStore.searchVideos "cats" ["all"] (.failure { detail := none, message := none })
        VideoStore.initialState).results = [] ∧
    (VideoStore.searchVideos "cats" ["all"] (.failure { detail := none, message := none })
        VideoStore.initialState).error ≠ none ∧
    (AppStore.searchVideos "cats" ["all"] (.failure { detail := none, message := none })
        AppStore.initialState).results = [] ∧
    (AppStore.searchVideos "cats" ["all"] (.failure { detail := none, message := none })
        AppStore.initialState).error ≠ none :=
  (searchVideos_post "cats" ["all"] (.failure { detail := none, message := none })
      VideoStore.initialState AppStore.initialState).2.2.1
    { detail := none, message := none } rfl

/-- C5: `fetchSources` (both copies) stores the response's `sources` array
into `availableSources` and stores `[]` when the field is absent; the
`SearchBar` renders one button per entry of `availableSources`, in the order
received (index `i` of the rendered buttons is the label of entry `i`). -/
theorem fetchSources_stores_and_renders_in_order (s : VideoStore.StoreState)
    (t : AppStore.StoreState) (srcs : List SourceInfo) (i : Nat) :
    (VideoStore.fetchSources (.success (some srcs)) s).availableSources = srcs ∧
    (VideoStore.fetchSources (.success none) s).availableSources = [] ∧
    (AppStore.fetchSources (.success (some srcs)) t).availableSources = srcs ∧
    (AppStore.fetchSources (.success none) t).availableSources = [] ∧
    (SearchBar.renderSourceButtons srcs).length = srcs.length ∧
    (SearchBar.renderSourceButtons srcs)[i]? =
      (srcs[i]?).map (fun src => jsOrStr src.driver_name src.name) := by
  refine ⟨rfl, rfl, rfl, rfl, ?_, ?_⟩
  · exact List.length_map srcs _
  · exact List.getElem?_map (fun src => jsOrStr src.driver_name src.name) srcs i

/-- C7: `suggest(query)` — modelled from the spec, the SuggestionEngine
source being absent from the snapshot — is a total (hence pure,
deterministic, non-failing, I/O-free) function appending each of the fixed
qualifier suffixes to the trimmed query, and it returns a non-empty sequence
for every non-empty input. -/
theorem suggest_appends_suffixes (query : String) :
    Backend.suggest query =
      [jsTrim query ++ " hd", jsTrim query ++ " compilation", jsTrim query ++ " amateur"] ∧
    (query ≠ "" → Backend.suggest query ≠ []) := by
  constructor
  · simp [Backend.suggest, Backend.suggestionSuffixes, String.append_assoc]
  · intro _
    simp [Backend.suggest, Backend.suggestionSuffixes]

/-- Witness for `suggest_appends_suffixes`: the concrete query `"Cats "`. -/
theorem suggest_appends_suffixes_witness :
    Backend.suggest "Cats " ≠ [] :=
  (suggest_appends_suffixes "Cats ").2 (by decide)

/-- C4, counterexample: `handleSubmit` guards on `query.trim()` being truthy
but passes the original `query` to `onSearch`.  With the typed query
`" cats "` a search is submitted whose query string still carries its
leading and trailing whitespace — it is not a trimmed string, contrary to
the claim. -/
theorem handleSubmit_passes_untrimmed_query :
    SearchBar.handleSubmit " cats " ["all"] = some (" cats ", ["all"]) ∧
    jsTrim " cats " ≠ " cats " := by
  constructor
  · simp [SearchBar.handleSubmit]
    decide
  · decide

/-- C4 as amended: for every search submitted through the `SearchBar`, the
query string passed to the search request is non-empty and contains a
non-whitespace character (its trim is non-empty) — but it is passed as
typed, so it may retain leading or trailing whitespace; the sources passed
are the current selection. -/
theorem handleSubmit_query_nonblank (query : String) (ss : List String)
    (p : String × List String) (h : SearchBar.handleSubmit query ss = some p) :
    jsTrim p.1 ≠ "" ∧ p.1 ≠ "" ∧ p.2 = ss := by
  unfold SearchBar.handleSubmit at h
  split at h
  · rename_i hq
    cases h
    refine ⟨hq, fun he => hq ?_, rfl⟩
    subst he
    rfl
  · cases h

/-- Witness for `handleSubmit_query_nonblank`: the concrete submission of
`" cats "` with selection `["all"]`. -/
theorem handleSubmit_query_nonblank_witness :
    jsTrim " cats " ≠ "" ∧ " cats " ≠ "" ∧ (["all"] : List String) = ["all"] :=
  handleSubmit_query_nonblank " cats " ["all"] (" cats ", ["all"]) (by decide)

/-- Helper for the source-selection invariant: one press of a per-source
filter button preserves `sourcesInv`, provided the button's slug is not the
sentinel `"all"`. -/
theorem toggleSource_inv (ss : List String) {name : String}
    (hn : name ≠ "all") : sourcesInv (SearchBar.toggleSource name ss) := by
  unfold SearchBar.toggleSource
  by_cases hall : "all" ∈ ss
  · rw [if_pos hall]
    right
    refine ⟨by simp, ?_⟩
    simp [Ne.symm hn]
  · rw [if_neg hall]
    have hnotall : "all" ∉ ss := hall
    by_cases hmem : name ∈ ss
    · rw [if_pos hmem]
      by_cases hnil : ss.filter (fun s => s ≠ name) = []
      · rw [if_pos hnil]
        left
        rfl
      · rw [if_neg hnil]
        right
        refine ⟨hnil, fun hin => ?_⟩
        exact hnotall (List.mem_of_mem_filter hin)
    · rw [if_neg hmem]
      have happ : ss ++ [name] ≠ [] := by simp
      rw [if_neg happ]
      right
      refine ⟨happ, fun hin => ?_⟩
      rcases List.mem_append.mp hin with h1 | h1
      · exact hnotall h1
      · simp at h1
        exact hn h1.symm

/-- C3: in every reachable state of the frontend store, `selectedSources` is
either exactly the sentinel list `["all"]` or a non-empty list of source
slugs not containing `"all"`: it starts as `["all"]` and every store action
— in particular the `SearchBar` buttons, the program's only writers of
`selectedSources` (deselecting the last explicit slug falls back to
`["all"]`) — preserves this. -/
theorem reachable_selectedSources_inv (s : VideoStore.StoreState)
    (h : Reachable s) : sourcesInv s.selectedSources := by
  induction h with
  | init =>
      left
      rfl
  | step a ha hr ih =>
      cases a with
      | searchVideos q srcs o =>
          cases o <;> simpa [applyAction, VideoStore.searchVideos] using ih
      | selectVideo v => simpa [applyAction, VideoStore.selectVideo] using ih
      | clearResults => simpa [applyAction, VideoStore.clearResults] using ih
      | setLoading b => simpa [applyAction, VideoStore.setLoading] using ih
      | setError e => simpa [applyAction, VideoStore.setError] using ih
      | setSearchQuery q => simpa [applyAction, VideoStore.setSearchQuery] using ih
      | selectAllSources =>
          left
          rfl
      | toggleSourceButton name =>
          exact toggleSource_inv _ ha
      | fetchSources o =>
          cases o <;> simpa [applyAction, VideoStore.fetchSources] using ih

/-- Witness for `reachable_selectedSources_inv`: the state reached from the
initial state by one press of the `"pornhub"` filter button. -/
theorem reachable_selectedSources_inv_witness :
    sourcesInv (applyAction (.toggleSourceButton "pornhub")
        VideoStore.initialState).selectedSources :=
  reachable_selectedSources_inv _
    (Reachable.step (.toggleSourceButton "pornhub")
      (show "pornhub" ≠ "all" by decide) Reachable.init)

/-- C8, counterexample: the two `useVideoStore` definitions are not
behaviorally equivalent.  Starting from the initial state, a failing
`fetchSources` request (no response `detail`, axios message
`"Network Error"`) makes the module store record the error message (and it
also toggles its extra `isLoadingSources` flag), while the copy embedded in
App.js only logs to the console and leaves the state unchanged — already
after projecting away `isLoadingSources` the resulting states differ. -/
theorem store_copies_not_equivalent :
    projectState
        (VideoStore.fetchSources (.failure { detail := none, message := some "Network Error" })
          VideoStore.initialState) ≠
      AppStore.fetchSources (.failure { detail := none, message := some "Network Error" })
        (projectState VideoStore.initialState) := by
  decide

/-- C8 as amended: after projecting away the module store's extra
`isLoadingSources` field, the two `useVideoStore` definitions agree on
`selectVideo`, `clearResults`, `setLoading`, `setError`, `setSearchQuery`,
`setSelectedSources`, on every successful `searchVideos`, on every failed
`searchVideos` whose error carries a non-empty response `detail`, and on
every successful `fetchSources` from a state with no pending error.  They
diverge on failed `fetchSources` requests (the module store records an error
message, the App.js copy changes nothing), on successful `fetchSources` from
a state with a pending error (the module store clears it), and on failed
`searchVideos` without a response `detail` (the module store falls back to
the axios `error.message`, the App.js copy always to `'Search failed'`). -/
theorem store_copies_agree (s : VideoStore.StoreState) (q : String)
    (srcs : List String) (v : Option VideoRecord) (b : Bool) (e : Option String)
    (d : SearchResponse) (so : Option (List SourceInfo)) :
    projectState (VideoStore.selectVideo v s) = AppStore.selectVideo v (projectState s) ∧
    projectState (VideoStore.clearResults s) = AppStore.clearResults (projectState s) ∧
    projectState (VideoStore.setLoading b s) = AppStore.setLoading b (projectState s) ∧
    projectState (VideoStore.setError e s) = AppStore.setError e (projectState s) ∧
    projectState (VideoStore.setSearchQuery q s) =
      AppStore.setSearchQuery q (projectState s) ∧
    projectState (VideoStore.setSelectedSources srcs s) =
      AppStore.setSelectedSources srcs (projectState s) ∧
    projectState (VideoStore.searchVideos q srcs (.success d) s) =
      AppStore.searchVideos q srcs (.success d) (projectState s) ∧
    (∀ (err : HttpError) (dd : String), err.detail = some dd → dd ≠ "" →
      projectState (VideoStore.searchVideos q srcs (.failure err) s) =
        AppStore.searchVideos q srcs (.failure err) (projectState s)) ∧
    (s.error = none →
      projectState (VideoStore.fetchSources (.success so) s) =
        AppStore.fetchSources (.success so) (projectState s)) := by
  refine ⟨rfl, rfl, rfl, rfl, rfl, rfl, rfl, fun err dd hdd hne => ?_, fun herr => ?_⟩
  · simp [VideoStore.searchVideos, AppStore.searchVideos, projectState, jsOrStr, hdd,
      if_neg hne]
  · simp [VideoStore.fetchSources, AppStore.fetchSources, projectState, herr]

/-- Witness for `store_copies_agree`: a concrete failed search whose error
carries the detail `"boom"`, and a concrete successful sources fetch, both
from the initial state. -/
theorem store_copies_agree_witness :
    projectState (VideoStore.searchVideos "cats" ["all"]
        (.failure { detail := some "boom", message := some "msg" })
        VideoStore.initialState) =
      AppStore.searchVideos "cats" ["all"]
        (.failure { detail := some "boom", message := some "msg" })
        (projectState VideoStore.initialState) ∧
    projectState (VideoStore.fetchSources
        (.success (some [{ name := "pornhub", enabled := true, driver_name := some "Pornhub" }]))
        VideoStore.initialState) =
      AppStore.fetchSources
        (.success (some [{ name := "pornhub", enabled := true, driver_name := some "Pornhub" }]))
        (projectState VideoStore.initialState) :=
  ⟨(store_copies_agree VideoStore.initialState "cats" ["all"] none false none
        { results := none }
        (some [{ name := "pornhub", enabled := true, driver_name := some "Pornhub" }])).2.2.2.2.2.2.2.1
      { detail := some "boom", message := some "msg" } "boom" rfl (by decide),
   (store_copies_agree VideoStore.initialState "cats" ["all"] none false none
        { results := none }
        (some [{ name := "pornhub", enabled := true, driver_name := some "Pornhub" }])).2.2.2.2.2.2.2.2
      rfl⟩

/-- Helper: aggregating over an empty slug list yields no records. -/
theorem gatherRecords_nil (env : Backend.OrchEnv) :
    Backend.gatherRecords env [] = [] := by
  unfold Backend.gatherRecords
  have h : (env.registry.map (fun p => p.1)).filter
      (fun slug => slug ∈ ([] : List String)) = [] := by
    refine List.filter_eq_nil_iff.mpr ?_
    intro a _
    simp
  rw [h]
  rfl

/-- C2 (spec-modelled: the orchestrator is absent from the snapshot): the
orchestrator's `search(request)` fails only with `InvalidRequest` — it
returns an error exactly when the request is invalid, and that error is
`InvalidRequest`; and for every valid request in which all selected sources
fail, `search` still returns a `SearchResult` with zero records, total `0`
and an empty sources-searched list rather than an error. -/
theorem search_fails_only_invalid (req : Backend.OrchRequest) (env : Backend.OrchEnv) :
    (∀ err, Backend.search req env = .error err →
      err = .invalidRequest ∧ ¬ Backend.validRequest req) ∧
    (Backend.validRequest req →
      (∀ slug ∈ Backend.resolveSelection env.registry req.sources,
        env.outcome slug = none) →
      Backend.search req env =
        .ok { results := [], total := 0, page := req.page, sources_searched := [] }) := by
  constructor
  · intro err herr
    unfold Backend.search at herr
    split at herr
    · cases herr
    · rename_i hv
      refine ⟨?_, hv⟩
      cases err
      rfl
  · intro hv hfail
    unfold Backend.search
    rw [if_pos hv]
    have hsearched : Backend.searchedSlugs env
        (Backend.resolveSelection env.registry req.sources) = [] := by
      unfold Backend.searchedSlugs
      refine List.filter_eq_nil_iff.mpr ?_
      intro a ha
      simp [hfail a ha]
    unfold Backend.computeResult
    rw [hsearched, gatherRecords_nil]
    simp

/-- Witness for `search_fails_only_invalid`: the documented example request
against a two-source registry in which every source branch fails. -/
theorem search_fails_only_invalid_witness :
    Backend.search { query := "test", sources := ["all"], page := 1, limit := 5 }
        { registry := [("pornhub", true), ("xvideos", true)], outcome := fun _ => none } =
      .ok { results := [], total := 0, page := 1, sources_searched := [] } :=
  (search_fails_only_invalid
      { query := "test", sources := ["all"], page := 1, limit := 5 }
      { registry := [("pornhub", true), ("xvideos", true)], outcome := fun _ => none }).2
    (by decide) (fun slug _ => rfl)

/-- Helper: a lookup on a cache whose head entry holds the key and is not
expired hits, returning the head's result. -/
theorem cacheGet_head_hit (k : Backend.SearchKey) (e : Backend.CacheEntry)
    (tail : List Backend.CacheEntry) (now ttl : Nat)
    (hk : e.key = k) (hexp : now - e.created ≤ ttl) :
    ∃ c2, Backend.cacheGet (e :: tail) k now ttl = (some e.result, c2) := by
  unfold Backend.cacheGet
  have hfind2 : List.find? (fun e2 : Backend.CacheEntry => e2.key == k) (e :: tail) =
      some e := by
    have hpe : (fun e2 : Backend.CacheEntry => e2.key == k) e = true := by simp [hk]
    exact List.find?_cons_of_pos tail hpe
  rw [hfind2]
  dsimp only
  rw [if_pos hexp]
  exact ⟨_, rfl⟩

/-- Helper: a cache hit leaves the hit entry at the front, so looking the
same key up again (at the same instant) hits again with the same result. -/
theorem cacheGet_hit_again {c : Backend.CacheState} {k : Backend.SearchKey}
    {now ttl : Nat} {r : Backend.OrchResult} {c1 : Backend.CacheState}
    (h : Backend.cacheGet c k now ttl = (some r, c1)) :
    ∃ c2, Backend.cacheGet c1 k now ttl = (some r, c2) := by
  unfold Backend.cacheGet at h
  cases hfind : c.find? (fun e => e.key == k) with
  | none =>
      rw [hfind] at h
      simp at h
  | some e =>
      rw [hfind] at h
      dsimp only at h
      split at h
      · rename_i hexp
        injection h with h1 h2
        injection h1 with h1
        subst h1 h2
        have hk : e.key = k := by
          have := List.find?_some hfind
          simpa using this
        exact cacheGet_head_hit k e _ now ttl hk hexp
      · injection h with h1 h2
        simp at h1

/-- Helper: immediately after `cachePut` (with positive capacity), looking
up the stored key at the same instant returns the stored result. -/
theorem cacheGet_after_put (c : Backend.CacheState) (k : Backend.SearchKey)
    (r : Backend.OrchResult) (now ttl : Nat) {capacity : Nat} (hcap : 0 < capacity) :
    ∃ c2, Backend.cacheGet (Backend.cachePut c k r now capacity) k now ttl = (some r, c2) := by
  obtain ⟨m, rfl⟩ : ∃ m, capacity = m + 1 :=
    ⟨capacity - 1, (Nat.succ_pred_eq_of_pos hcap).symm⟩
  unfold Backend.cachePut
  rw [List.take_succ_cons]
  exact cacheGet_head_hit k { key := k, result := r, created := now } _ now ttl rfl
    (by simp)

/-- C6 (spec-modelled: the orchestrator and its ResultCache are absent from
the snapshot): cache idempotence — after a successful first call, issuing
the identical request back-to-back (same environment and instant, so same
normalized `SearchKey`) returns the identical `SearchResult` and performs
zero FetchClient invocations. -/
theorem searchCached_idempotent (req : Backend.OrchRequest) (env : Backend.OrchEnv)
    (cache : Backend.CacheState) (now ttl capacity : Nat)
    (res1 : Backend.OrchResult) (c1 : Backend.CacheState) (n1 : Nat)
    (hcap : 0 < capacity)
    (h1 : Backend.searchCached req env cache now ttl capacity = (.ok res1, c1, n1)) :
    ∃ c2, Backend.searchCached req env c1 now ttl capacity = (.ok res1, c2, 0) := by
  unfold Backend.searchCached at h1 ⊢
  by_cases hv : Backend.validRequest req
  · rw [if_pos hv] at h1 ⊢
    cases hget : Backend.cacheGet cache (Backend.mkSearchKey req env) now ttl with
    | mk o cc =>
      rw [hget] at h1
      cases o with
      | some r =>
          simp only at h1
          injection h1 with ha hb
          injection hb with hb hc
          injection ha with ha
          subst ha hb
          obtain ⟨c2, h2⟩ := cacheGet_hit_again hget
          rw [h2]
          exact ⟨c2, rfl⟩
      | none =>
          simp only at h1
          injection h1 with ha hb
          injection hb with hb hc
          injection ha with ha
          subst ha hb
          obtain ⟨c2, h2⟩ :=
            cacheGet_after_put cc (Backend.mkSearchKey req env)
              (Backend.computeResult req env) now ttl hcap
          rw [h2]
          exact ⟨c2, rfl⟩
  · rw [if_neg hv] at h1
    injection h1 with ha hb
    cases ha

/-- Witness for `searchCached_idempotent`: the documented example request
against a one-source registry, first call from an empty cache. -/
theorem searchCached_idempotent_witness :
    ∃ c2, Backend.searchCached
        { query := "test", sources := ["all"], page := 1, limit := 5 }
        { registry := [("pornhub", true)], outcome := fun _ => some [] }
        [{ key := { query := "test", slugs := ["pornhub"], page := 1 }
           result := { results := [], total := 0, page := 1, sources_searched := ["pornhub"] }
           created := 0 }] 0 10 4 =
      (.ok { results := [], total := 0, page := 1, sources_searched := ["pornhub"] }, c2, 0) :=
  searchCached_idempotent
    { query := "test", sources := ["all"], page := 1, limit := 5 }
    { registry := [("pornhub", true)], outcome := fun _ => some [] }
    [] 0 10 4
    { results := [], total := 0, page := 1, sources_searched := ["pornhub"] }
    [{ key := { query := "test", slugs := ["pornhub"], page := 1 }
       result := { results := [], total := 0, page := 1, sources_searched := ["pornhub"] }
       created := 0 }] 1
    (by decide) rfl

end NeonSearch
